import Mathlib

/-!
Verification of the `aip_urdf_compiler` XACRO compiler
(`src/aip_urdf_compiler/scripts/compile_urdf.py`).

The Python script is shallowly embedded below.  YAML values are modelled by
the inductive `Yaml` (numbers collapsed to `Int`; mapping keys are strings,
as every calibration source in scope uses string keys).  Python exceptions
are modelled by `PyErr` and fallible Python code returns `Except PyErr _`.
Python string operations used by the script (`in`, `str.replace`,
`str.lower`, `len`) are embedded as executable Lean functions on `String`.
-/

namespace AipUrdf

/-! ## String primitives (embedding of the Python string operations) -/

/-- Embedding of Python `pat in hay` for lists of characters:
`true` iff `pat` occurs as a contiguous sublist of the haystack. -/
def subOfAux (pat : List Char) : List Char → Bool
  | [] => pat.isEmpty
  | c :: rest => pat.isPrefixOf (c :: rest) || subOfAux pat rest

/-- Embedding of Python `pat in s` (substring test). -/
def strContains (s pat : String) : Bool :=
  subOfAux pat.data s.data

/-- Embedding of Python `s.lower()` (ASCII lowering, which is all the
script's inputs use). -/
def strLower (s : String) : String :=
  ⟨s.data.map Char.toLower⟩

/-- Worker for `pyReplace`: replaces non-overlapping occurrences of `pat`
left to right, with `fuel` bounding the recursion (callers pass the length
of the haystack, which suffices for a non-empty pattern). -/
def replaceCore (pat rep : List Char) : Nat → List Char → List Char
  | _, [] => []
  | 0, hay => hay
  | fuel + 1, c :: rest =>
    if pat.isPrefixOf (c :: rest) then
      rep ++ replaceCore pat rep fuel ((c :: rest).drop pat.length)
    else
      c :: replaceCore pat rep fuel rest

/-- Embedding of Python `s.replace(pat, rep)` for a non-empty pattern
(the script only ever replaces the non-empty patterns `_base_link`,
`_link` and `\x7bfilename\x7d`).  An empty pattern returns `s` unchanged. -/
def pyReplace (s pat rep : String) : String :=
  if pat = "" then s
  else ⟨replaceCore pat.data rep.data s.data.length s.data⟩

/-! ## Data model: YAML values and Python exceptions -/

/-- YAML-like values.  Numbers are collapsed to `Int` (the compiler never
computes with offset values, it only copies them around), mapping keys are
strings. -/
inductive Yaml where
  | null
  | bool (b : Bool)
  | num (n : Int)
  | str (s : String)
  | list (xs : List Yaml)
  | map (kvs : List (String × Yaml))

/-- The Python exceptions the script can raise, per the spec's taxonomy:
`notFound` is `FileNotFoundError`, `formatError` covers the structural
`ValueError`/`AssertionError` conditions, `missingField` is the `KeyError`
for an absent dictionary key, and `typeError`/`attributeError` model the
dynamic-typing failures `TypeError`/`AttributeError`. -/
inductive PyErr where
  | notFound (msg : String)
  | formatError (msg : String)
  | missingField (key : String)
  | typeError
  | attributeError
deriving DecidableEq

/-- First binding of key `k` in an association list (YAML mappings have
unique keys, so this is Python `dict` lookup). -/
def alist_lookup (kvs : List (String × Yaml)) (k : String) : Option Yaml :=
  match kvs with
  | [] => none
  | (k1, v) :: rest => if k1 = k then some v else alist_lookup rest k

/-- Embedding of Python `d[k]`: `KeyError` when the key is absent,
`TypeError` when the subject is not a dictionary. -/
def pyGetItem (y : Yaml) (k : String) : Except PyErr Yaml :=
  match y with
  | .map kvs =>
    match alist_lookup kvs k with
    | some v => .ok v
    | none => .error (.missingField k)
  | _ => .error .typeError

/-- Embedding of Python `d.get(k, dflt)` (`AttributeError` when the subject
is not a dictionary). -/
def pyGet (y : Yaml) (k : String) (dflt : Yaml) : Except PyErr Yaml :=
  match y with
  | .map kvs => .ok ((alist_lookup kvs k).getD dflt)
  | _ => .error .attributeError

/-- Embedding of Python `len(v)`: defined for strings, lists and dicts,
`TypeError` otherwise. -/
def pyLen : Yaml → Except PyErr Nat
  | .str s => .ok s.length
  | .list xs => .ok xs.length
  | .map kvs => .ok kvs.length
  | _ => .error .typeError

/-- Embedding of Python `v.lower()`: only strings have `lower`,
anything else raises `AttributeError`. -/
def pyLower : Yaml → Except PyErr String
  | .str s => .ok (strLower s)
  | _ => .error .attributeError

/-- Embedding of Python `pat in v` for a string literal `pat`: substring
test on strings, element equality on lists, key membership on dicts,
`TypeError` otherwise. -/
def pyInY (pat : String) : Yaml → Except PyErr Bool
  | .str s => .ok (strContains s pat)
  | .list xs => .ok (xs.any fun y => match y with | .str s => s == pat | _ => false)
  | .map kvs => .ok (kvs.any fun kv => kv.1 == pat)
  | _ => .error .typeError

/-- Embedding of Python `str(v)` as used by `str.format` substitution.
Only the string arm is exercised by the compiler on well-formed inputs;
the container arms are abbreviated (no claim depends on them). -/
def pyStr : Yaml → String
  | .str s => s
  | .num n => toString n
  | .null => "None"
  | .bool true => "True"
  | .bool false => "False"
  | .list _ => "[...]"
  | .map _ => "\x7b...\x7d"

/-! ## LinkType (the `LinkType` enum, source lines 182-197) -/

/-- The closed enumeration of sensor categories. -/
inductive LinkType where
  | CAMERA
  | IMU
  | LIVOX
  | PANDAR_40P
  | PANDAR_OT128
  | PANDAR_XT32
  | PANDAR_QT
  | PANDAR_QT128
  | VELODYNE16
  | VLS128
  | RADAR
  | GNSS
  | JOINT_UNITS
deriving DecidableEq

/-- The enum values (`LinkType.<member>.value` in the source). -/
def LinkType.value : LinkType → String
  | .CAMERA => "monocular_camera"
  | .IMU => "imu"
  | .LIVOX => "livox_horizon"
  | .PANDAR_40P => "pandar_40p"
  | .PANDAR_OT128 => "pandar_ot128"
  | .PANDAR_XT32 => "pandar_xt32"
  | .PANDAR_QT => "pandar_qt"
  | .PANDAR_QT128 => "pandar_qt128"
  | .VELODYNE16 => "velodyne_16"
  | .VLS128 => "velodyne_128"
  | .RADAR => "radar"
  | .GNSS => "gnss"
  | .JOINT_UNITS => "units"

/-- Iteration order of `for type_enum in LinkType` (enum definition order). -/
def LinkType.all : List LinkType :=
  [.CAMERA, .IMU, .LIVOX, .PANDAR_40P, .PANDAR_OT128, .PANDAR_XT32,
   .PANDAR_QT, .PANDAR_QT128, .VELODYNE16, .VLS128, .RADAR, .GNSS, .JOINT_UNITS]

/-- Embedding of `determine_link_type` (source lines 214-254): first-match
substring scan over the given link name, exactly as written (note: the
source does NOT lower-case `link_name`). -/
def determine_link_type (link_name : String) : LinkType :=
  if strContains link_name "cam" then .CAMERA
  else if strContains link_name "imu" then .IMU
  else if strContains link_name "gnss" then .GNSS
  else if strContains link_name "livox" then .LIVOX
  else if strContains link_name "velodyne" then
    (if strContains link_name "top" then .VLS128 else .VELODYNE16)
  else if strContains link_name "radar" || strContains link_name "ars" then .RADAR
  else if strContains link_name "pandar_40p" then .PANDAR_40P
  else if strContains link_name "pandar_qt" then .PANDAR_QT
  else if strContains link_name "hesai_top" then .PANDAR_OT128
  else if strContains link_name "hesai_front" then .PANDAR_XT32
  else if strContains link_name "hesai" then .PANDAR_XT32
  else .JOINT_UNITS

/-! ## Transformation (source lines 52-138) -/

/-- Embedding of line 83:
`self.name = self.child_frame.replace("_base_link", "").replace("_link", "")`. -/
def derived_name (child_frame : String) : String :=
  pyReplace (pyReplace child_frame "_base_link" "") "_link" ""

/-- A constructed `Transformation`.  `type` and `frame_id` stay `Yaml`
because the Python constructor can store non-string values there. -/
structure Transformation where
  x : Yaml
  y : Yaml
  z : Yaml
  roll : Yaml
  pitch : Yaml
  yaw : Yaml
  base_frame : String
  child_frame : String
  type : Yaml
  name : String
  frame_id : Yaml

/-- Embedding of `Transformation.__init__` (source lines 60-108),
line by line: the six offset reads (KeyError when absent), the `type`
default and name-based inference, the derived `name`, and the `frame_id`
defaulting rule with its short-circuit membership tests. -/
def Transformation.ofYaml (entry : Yaml) (base_frame child_frame : String) :
    Except PyErr Transformation :=
  match pyGetItem entry "x" with
  | .error e => .error e
  | .ok vx =>
  match pyGetItem entry "y" with
  | .error e => .error e
  | .ok vy =>
  match pyGetItem entry "z" with
  | .error e => .error e
  | .ok vz =>
  match pyGetItem entry "roll" with
  | .error e => .error e
  | .ok vroll =>
  match pyGetItem entry "pitch" with
  | .error e => .error e
  | .ok vpitch =>
  match pyGetItem entry "yaw" with
  | .error e => .error e
  | .ok vyaw =>
  match pyGet entry "type" (.str "") with
  | .error e => .error e
  | .ok type0 =>
  let name := derived_name child_frame
  match pyLen type0 with
  | .error e => .error e
  | .ok tlen =>
  let type1 := if tlen = 0 then Yaml.str (determine_link_type name).value else type0
  match pyGet entry "frame_id" (.str "") with
  | .error e => .error e
  | .ok fid0 =>
  match pyLen fid0 with
  | .error e => .error e
  | .ok flen =>
  if flen = 0 then
    match pyInY "pandar" type1 with
    | .error e => .error e
    | .ok b1 =>
    if b1 then
      .ok ⟨vx, vy, vz, vroll, vpitch, vyaw, base_frame, child_frame, type1, name, .str name⟩
    else
    match pyInY "livox" type1 with
    | .error e => .error e
    | .ok b2 =>
    if b2 then
      .ok ⟨vx, vy, vz, vroll, vpitch, vyaw, base_frame, child_frame, type1, name, .str name⟩
    else
    match pyInY "camera" type1 with
    | .error e => .error e
    | .ok b3 =>
    if b3 then
      .ok ⟨vx, vy, vz, vroll, vpitch, vyaw, base_frame, child_frame, type1, name, .str name⟩
    else
    match pyLower type1 with
    | .error e => .error e
    | .ok tl =>
    if strContains tl "vls" || strContains tl "vlp" then
      .ok ⟨vx, vy, vz, vroll, vpitch, vyaw, base_frame, child_frame, type1, name, .str name⟩
    else
      .ok ⟨vx, vy, vz, vroll, vpitch, vyaw, base_frame, child_frame, type1, name, .str child_frame⟩
  else
    .ok ⟨vx, vy, vz, vroll, vpitch, vyaw, base_frame, child_frame, type1, name, fid0⟩

/-- Embedding of `obtain_link_type` (source lines 200-211). -/
def obtain_link_type (link : Transformation) : Except PyErr LinkType :=
  match pyLen link.type with
  | .error e => .error e
  | .ok n =>
  if 0 < n then
    match pyLower link.type with
    | .error e => .error e
    | .ok tl =>
    match LinkType.all.find? (fun e => tl == strLower e.value) with
    | some e => .ok e
    | none => .ok (determine_link_type link.child_frame)
  else .ok (determine_link_type link.child_frame)

/-! ## Calibration (source lines 141-179) -/

/-- A constructed `Calibration`: one base frame plus the child-frame
transformations in source (insertion) order. -/
structure Calibration where
  base_frame : String
  transforms : List (String × Transformation)

/-- The per-child loop of `Calibration.__init__` (source lines 171-179). -/
def buildTransforms (base : String) :
    List (String × Yaml) → Except PyErr (List (String × Transformation))
  | [] => .ok []
  | (k, v) :: rest =>
    match Transformation.ofYaml v base k with
    | .error e => .error e
    | .ok t =>
      match buildTransforms base rest with
      | .error e => .error e
      | .ok ts => .ok ((k, t) :: ts)

/-- Embedding of `Calibration.__init__` (source lines 148-179): exactly one
top-level key whose value is a dictionary, else the corresponding
`AssertionError` (modelled as `formatError`); a non-dictionary argument
would raise `AttributeError` at `calibration.keys()`. -/
def Calibration.ofYaml : Yaml → Except PyErr Calibration
  | .map kvs =>
    match kvs with
    | [(base, .map children)] =>
      (match buildTransforms base children with
       | .error e => .error e
       | .ok ts => .ok ⟨base, ts⟩)
    | [_] =>
      .error (.formatError
        "Calibration file should have only one base frame with value as a dictionary")
    | _ => .error (.formatError "Calibration file should have only one base frame")
  | _ => .error .attributeError

/-! ## Dispatch table and string generation (source lines 257-393) -/

/-- Embedding of `Transformation.serialize_single` (source lines 110-120):
the deferred-lookup expression for one offset field. -/
def serialize_single (t : Transformation) (key : String) : String :=
  "$\x7bcalibration['" ++ t.base_frame ++ "']['" ++ t.child_frame ++ "']['" ++ key ++ "']\x7d"

/-- `BASE_STRING.format(...)` (source lines 257-267). -/
def BASE_STRING_fmt (ty child base x y z roll pitch yaw extra : String) : String :=
  "<xacro:" ++ ty
  ++ "\n        name=\"" ++ child
  ++ "\"\n        parent=\"" ++ base
  ++ "\"\n        x=\"" ++ x
  ++ "\"\n        y=\"" ++ y
  ++ "\"\n        z=\"" ++ z
  ++ "\"\n        roll=\"" ++ roll
  ++ "\"\n        pitch=\"" ++ pitch
  ++ "\"\n        yaw=\"" ++ yaw
  ++ "\"\n        " ++ extra
  ++ "\n    />"

/-- `VLD_STRING.format(...)` (source lines 269-278). -/
def VLD_STRING_fmt (ty base child x y z roll pitch yaw : String) : String :=
  "<xacro:" ++ ty ++ " parent=\"" ++ base ++ "\" name=\"" ++ child
  ++ "\" topic=\"/points_raw\" hz=\"10\" samples=\"220\" gpu=\"$(arg gpu)\">"
  ++ "\n    <origin"
  ++ "\n        xyz=\"" ++ x
  ++ "\n            " ++ y
  ++ "\n            " ++ z
  ++ "\"\n        rpy=\"" ++ roll
  ++ "\n            " ++ pitch
  ++ "\n            " ++ yaw
  ++ "\"\n    />"
  ++ "\n    </xacro:" ++ ty ++ ">"

/-- The camera extra attributes of `base_string_func` (source lines 283-287). -/
def camera_extra : String :=
  "fps=\"30\"\n        width=\"800\"\n        height=\"400\"\n        namespace=\"\"\n        fov=\"1.3\""

/-- The IMU extra attributes of `base_string_func` (source lines 289-290). -/
def imu_extra : String :=
  "fps=\"100\"\n        namespace=\"\""

/-- Embedding of `base_string_func` (source lines 281-304). -/
def base_string_func (macro_type : String) (t : Transformation) : String :=
  let extra :=
    if macro_type = "monocular_camera_macro" then camera_extra
    else if macro_type = "imu_macro" then imu_extra
    else ""
  BASE_STRING_fmt macro_type (pyStr t.frame_id) t.base_frame
    (serialize_single t "x") (serialize_single t "y") (serialize_single t "z")
    (serialize_single t "roll") (serialize_single t "pitch") (serialize_single t "yaw")
    extra

/-- Embedding of `VLP16_func` (source lines 307-318). -/
def VLP16_func (t : Transformation) : String :=
  VLD_STRING_fmt "VLP-16" t.base_frame (pyStr t.frame_id)
    (serialize_single t "x") (serialize_single t "y") (serialize_single t "z")
    (serialize_single t "roll") (serialize_single t "pitch") (serialize_single t "yaw")

/-- Embedding of `VLS128_func` (source lines 321-332). -/
def VLS128_func (t : Transformation) : String :=
  VLD_STRING_fmt "VLS-128" t.base_frame (pyStr t.frame_id)
    (serialize_single t "x") (serialize_single t "y") (serialize_single t "z")
    (serialize_single t "roll") (serialize_single t "pitch") (serialize_single t "yaw")

/-- The `including_file` column of `link_dicts` (source lines 341-393). -/
def including_file : LinkType → String
  | .CAMERA => "$(find camera_description)/urdf/monocular_camera.xacro"
  | .IMU => "$(find imu_description)/urdf/imu.xacro"
  | .GNSS => "$(find imu_description)/urdf/imu.xacro"
  | .VELODYNE16 => "$(find velodyne_description)/urdf/VLP-16.urdf.xacro"
  | .VLS128 => "$(find vls_description)/urdf/VLS-128.urdf.xacro"
  | .PANDAR_40P => "$(find pandar_description)/urdf/pandar_40p.xacro"
  | .PANDAR_OT128 => "$(find pandar_description)/urdf/pandar_ot128.xacro"
  | .PANDAR_XT32 => "$(find pandar_description)/urdf/pandar_xt32.xacro"
  | .PANDAR_QT => "$(find pandar_description)/urdf/pandar_qt.xacro"
  | .PANDAR_QT128 => "$(find pandar_description)/urdf/pandar_qt128.xacro"
  | .LIVOX => "$(find livox_description)/urdf/livox_horizon.xacro"
  | .RADAR => "$(find radar_description)/urdf/radar.xacro"
  | .JOINT_UNITS => "\x7bfilename\x7d.xacro"

/-- The `string_api` column of `link_dicts` (source lines 341-393);
`none` for `JOINT_UNITS`, whose dictionary entry has no `string_api` key. -/
def string_api : LinkType → Option (Transformation → String)
  | .CAMERA => some (base_string_func "monocular_camera_macro")
  | .IMU => some (base_string_func "imu_macro")
  | .GNSS => some (base_string_func "imu_macro")
  | .VELODYNE16 => some VLP16_func
  | .VLS128 => some VLS128_func
  | .PANDAR_40P => some (base_string_func "Pandar40P")
  | .PANDAR_OT128 => some (base_string_func "PandarOT-128")
  | .PANDAR_XT32 => some (base_string_func "PandarXT-32")
  | .PANDAR_QT => some (base_string_func "PandarQT")
  | .PANDAR_QT128 => some (base_string_func "PandarQT-128")
  | .LIVOX => some (base_string_func "livox_horizon_macro")
  | .RADAR => some (base_string_func "radar_macro")
  | .JOINT_UNITS => none

/-! ## Orchestrator (`main`, source lines 396-485) -/

/-- Python `set.add` on the include set, modelled as an insertion-ordered
duplicate-free list: the canonical contents of `include_text`.  (The order
in which CPython enumerates the set is a separate concern, modelled by the
enumeration-order parameter in the round-trip theorem.) -/
def setAdd (l : List String) (x : String) : List String :=
  if x ∈ l then l else l ++ [x]

/-- One entry of `render_meta_data["sensor_units"]` (source lines 430-437). -/
structure UnitMeta where
  base_frame : String
  child_frame : String
  macro_name : String
  name : String
deriving DecidableEq

/-- The aggregate-pass results of `main` (source lines 421-444):
the canonical contents of `include_text`, the `isolated_sensors` strings,
the joint-unit metadata and `sensor_units_includes`. -/
structure AggResult where
  includes : List String
  sensors : List String
  units : List UnitMeta
  unit_includes : List String
deriving DecidableEq

/-- The aggregate classification loop of `main` (source lines 423-441). -/
def aggLoop : List (String × Transformation) → List String → List String →
    List UnitMeta → List String → Except PyErr AggResult
  | [], incl, sens, units, uincl => .ok ⟨incl, sens, units, uincl⟩
  | (_, t) :: rest, incl, sens, units, uincl =>
    match obtain_link_type t with
    | .error e => .error e
    | .ok lt =>
    if lt = .JOINT_UNITS then
      aggLoop rest incl sens
        (units ++ [⟨t.base_frame, t.child_frame, t.name ++ "_macro", t.name⟩])
        (uincl ++ [pyReplace (including_file .JOINT_UNITS) "\x7bfilename\x7d" t.name])
    else
      match string_api lt with
      | some f => aggLoop rest (setAdd incl (including_file lt)) (sens ++ [f t]) units uincl
      | none => .error (.missingField "string_api")

/-- Embedding of `load_yaml` (source lines 25-49) over a modelled file
system (a mapping from path to already-parsed YAML content; absence of the
path is `FileNotFoundError`).  The empty/non-dictionary conditions raise
`ValueError` in the source, re-wrapped by its generic handler; both are
modelled as `formatError` (no claim exercises them). -/
def load_yaml (fs : List (String × Yaml)) (path : String) : Except PyErr Yaml :=
  match alist_lookup fs path with
  | none => .error (.notFound ("YAML file not found: " ++ path))
  | some .null => .error (.formatError ("YAML file is empty or invalid: " ++ path))
  | some (.map kvs) => .ok (.map kvs)
  | some _ => .error (.formatError ("YAML file must contain a dictionary: " ++ path))

/-- The per-unit inner loop of `main` (source lines 472-476): classify each
transformation of a unit calibration, grow the global include set (line 474
adds the include BEFORE the `string_api` access, so a nested joint unit
adds the raw `\x7bfilename\x7d.xacro` entry and then dies with the
`KeyError` of the missing `string_api` key). -/
def unitLoop : List (String × Transformation) → List String →
    Except PyErr (List String × List String)
  | [], incl => .ok (incl, [])
  | (_, t) :: rest, incl =>
    match obtain_link_type t with
    | .error e => .error e
    | .ok lt =>
    let incl1 := setAdd incl (including_file lt)
    match string_api lt with
    | some f =>
      (match unitLoop rest incl1 with
       | .error e => .error e
       | .ok (inclF, sens) => .ok (inclF, f t :: sens))
    | none => .error (.missingField "string_api")

/-- The include files a unit's transform list feeds into the include set,
in classification order (duplicates kept; pure in the accumulator). -/
def collected_files : List (String × Transformation) → Except PyErr (List String)
  | [] => .ok []
  | (_, t) :: rest =>
    match obtain_link_type t with
    | .error e => .error e
    | .ok lt =>
    match string_api lt with
    | some _ =>
      (match collected_files rest with
       | .error e => .error e
       | .ok l => .ok (including_file lt :: l))
    | none => .error (.missingField "string_api")

/-- One written per-unit artifact: the unit's name, its rendering context's
`current_base_link`, the canonical contents of `include_text` at the moment
`isolated_sensors_includes` is emitted (source line 477), and its
`isolated_sensors` strings. -/
structure UnitOut where
  name : String
  base_link : String
  includes : List String
  sensors : List String
deriving DecidableEq

/-- The per-unit orchestration loop of `main` (source lines 457-483).
Outputs written before a failing unit persist (the source writes each
unit's file inside the loop); the first failure aborts the rest. -/
def unitsLoop (fs : List (String × Yaml)) :
    List UnitMeta → List String → List UnitOut × Option PyErr
  | [], _ => ([], none)
  | u :: rest, incl =>
    match load_yaml fs (u.name ++ "_calibration.yaml") with
    | .error e => ([], some e)
    | .ok y =>
      match Calibration.ofYaml y with
      | .error e => ([], some e)
      | .ok calib =>
        match unitLoop calib.transforms incl with
        | .error e => ([], some e)
        | .ok (incl1, sens) =>
          let (outs, err) := unitsLoop fs rest incl1
          (⟨u.name, calib.base_frame, incl1, sens⟩ :: outs, err)

/-- The observable result of one `main` invocation: the aggregate pass
data, the per-unit artifacts written, and the error (if any) that aborted
the per-unit stage. -/
structure CompileResult where
  agg : AggResult
  unit_outs : List UnitOut
  err : Option PyErr
deriving DecidableEq

/-- Embedding of `main` (source lines 396-485): load and parse the main
calibration, run the aggregate pass, then process each joint unit in turn
(template rendering and file writing are external; what is modelled is the
data each rendering context receives). -/
def compile (fs : List (String × Yaml)) : Except PyErr CompileResult :=
  match load_yaml fs "sensors_calibration.yaml" with
  | .error e => .error e
  | .ok y =>
    match Calibration.ofYaml y with
    | .error e => .error e
    | .ok calib =>
      match aggLoop calib.transforms [] [] [] [] with
      | .error e => .error e
      | .ok agg =>
        let (outs, err) := unitsLoop fs agg.units agg.includes
        .ok ⟨agg, outs, err⟩

/-! ## Definitions taken from the spec's words (for refinement comparison)

These are NOT translations of the source; they transcribe what the
natural-language spec asserts, so that spec and source can be compared. -/

/-- Modelled from the spec's words for the heuristic fallback: "inspect the
lower-cased child-frame identifier for substring markers, tested in this
precedence order (first match wins)". -/
def spec_heuristic (link_name : String) : LinkType :=
  let n := strLower link_name
  if strContains n "cam" then .CAMERA
  else if strContains n "imu" then .IMU
  else if strContains n "gnss" then .GNSS
  else if strContains n "livox" then .LIVOX
  else if strContains n "velodyne" then
    (if strContains n "top" then .VLS128 else .VELODYNE16)
  else if strContains n "radar" || strContains n "ars" then .RADAR
  else if strContains n "pandar_40p" then .PANDAR_40P
  else if strContains n "pandar_qt" then .PANDAR_QT
  else if strContains n "hesai_top" then .PANDAR_OT128
  else if strContains n "hesai_front" then .PANDAR_XT32
  else if strContains n "hesai" then .PANDAR_XT32
  else .JOINT_UNITS

/-- Modelled from the spec's words for frame_id defaulting: "if the
(lower-cased) type matches certain sensor families (pandar, livox, camera,
vls/vlp) the frame_id equals the derived name ... otherwise frame_id equals
the raw child-frame identifier". -/
def spec_frame_id (ty name child : String) : String :=
  if strContains (strLower ty) "pandar" || strContains (strLower ty) "livox"
     || strContains (strLower ty) "camera" || strContains (strLower ty) "vls"
     || strContains (strLower ty) "vlp" then name
  else child

/-- Modelled from the spec's words for name derivation: "child-frame
identifier with well-known suffixes `_base_link` and `_link` stripped"
(a suffix is a trailing occurrence). -/
def spec_name (child : String) : String :=
  let l := child.data
  let l1 := if ("_base_link".data).isSuffixOf l then l.take (l.length - 10) else l
  let l2 := if ("_link".data).isSuffixOf l1 then l1.take (l1.length - 5) else l1
  ⟨l2⟩

/-! ## Concrete demonstration data -/

/-- An entry holding exactly the six numeric offset fields. -/
def six_nums : List (String × Yaml) :=
  [("x", .num 1), ("y", .num 2), ("z", .num 3),
   ("roll", .num 0), ("pitch", .num 0), ("yaw", .num 0)]

/-- A calibration with one camera child carrying an explicit type. -/
def demoCal8 : Yaml :=
  .map [("sensor_kit_base_link", .map
    [("camera_front_base_link", .map (six_nums ++ [("type", Yaml.str "monocular_camera")]))])]

/-- A calibration whose two isolated sensors contribute two distinct
include references (IMU first, camera second). -/
def demoCal5 : Yaml :=
  .map [("base_link", .map
    [("imu0", .map (six_nums ++ [("type", Yaml.str "imu")])),
     ("camera0", .map (six_nums ++ [("type", Yaml.str "monocular_camera")]))])]

/-- A file system holding only the main calibration, whose single child
frame matches no heuristic marker. -/
def demoFs9 : List (String × Yaml) :=
  [("sensors_calibration.yaml", .map [("base_link", .map [("unknown_mount", .map six_nums)])])]

/-! ## Helper lemmas -/

/-- If the pattern does not occur in the haystack, replacement is the
identity (for any fuel). -/
theorem replaceCore_id (pat rep : List Char) :
    ∀ (hay : List Char) (fuel : Nat), subOfAux pat hay = false →
      replaceCore pat rep fuel hay = hay := by
  intro hay
  induction hay with
  | nil => intro fuel _; cases fuel <;> rfl
  | cons c cs ih =>
    intro fuel h
    rw [subOfAux, Bool.or_eq_false_iff] at h
    cases fuel with
    | zero => rfl
    | succ n =>
      rw [replaceCore, if_neg (by simp [h.1]), ih n h.2]

/-- A non-empty string has positive length. -/
theorem strlen_pos {s : String} (h : s ≠ "") : 0 < s.length := by
  cases s with
  | mk l =>
    cases l with
    | nil => exact absurd rfl h
    | cons c cs => simp [String.length]

/-- Every enum value string is non-empty. -/
theorem LinkType.value_length_pos (e : LinkType) : 0 < e.value.length := by
  cases e <;> decide

/-- Every enum value string is already lower-case. -/
theorem LinkType.value_lower (e : LinkType) : strLower e.value = e.value := by
  cases e <;> decide

/-- Looking an enum value up in the enum's member list finds that member
(the values are pairwise distinct). -/
theorem LinkType.find_value (e : LinkType) :
    LinkType.all.find? (fun x => e.value == strLower x.value) = some e := by
  cases e <;> decide

/-- Membership in the include set after an insertion. -/
theorem mem_setAdd {l : List String} {x y : String} :
    y ∈ setAdd l x ↔ y ∈ l ∨ y = x := by
  unfold setAdd
  split
  · constructor
    · exact Or.inl
    · rintro (h | rfl) <;> assumption
  · simp [List.mem_append]

/-- The six required offset keys, in the order the constructor reads them. -/
def offset_keys : List String := ["x", "y", "z", "roll", "pitch", "yaw"]

/-- All six offset keys are present in the entry. -/
def has_offsets (kvs : List (String × Yaml)) : Bool :=
  offset_keys.all (fun k => (alist_lookup kvs k).isSome)

/-- The optional field `k`, when present, holds a string. -/
def opt_str_field (kvs : List (String × Yaml)) (k : String) : Bool :=
  match alist_lookup kvs k with
  | none => true
  | some (.str _) => true
  | some _ => false

/-- A well-formed transformation entry: a mapping with the six offset keys
and (when present) string-valued `type` and `frame_id` fields. -/
def good_entry : Yaml → Bool
  | .map kvs => has_offsets kvs && opt_str_field kvs "type" && opt_str_field kvs "frame_id"
  | _ => false

/-- The first absent offset key, in read order. -/
def first_missing (kvs : List (String × Yaml)) : Option String :=
  offset_keys.find? (fun k => (alist_lookup kvs k).isNone)

/-- The transformation the constructor produces when the six offsets are
present, the type resolves to the string `u` and the frame_id defaults. -/
def mkT (vx vy vz vr vp vw : Yaml) (b c u : String) : Transformation :=
  ⟨vx, vy, vz, vr, vp, vw, b, c, .str u, derived_name c,
   .str (if strContains u "pandar" || strContains u "livox" || strContains u "camera"
            || strContains (strLower u) "vls" || strContains (strLower u) "vlp"
         then derived_name c else c)⟩

theorem pyLen_str_empty : pyLen (.str "") = .ok 0 := rfl

/-- Constructor characterization, no declared type: the type is inferred
from the suffix-stripped name and the frame_id defaults. -/
theorem ofYaml_char_no_type {kvs : List (String × Yaml)} {vx vy vz vr vp vw : Yaml}
    (b c : String)
    (hx : alist_lookup kvs "x" = some vx) (hy : alist_lookup kvs "y" = some vy)
    (hz : alist_lookup kvs "z" = some vz) (hr : alist_lookup kvs "roll" = some vr)
    (hp : alist_lookup kvs "pitch" = some vp) (hw : alist_lookup kvs "yaw" = some vw)
    (ht : alist_lookup kvs "type" = none) (hf : alist_lookup kvs "frame_id" = none) :
    Transformation.ofYaml (.map kvs) b c =
      .ok (mkT vx vy vz vr vp vw b c (determine_link_type (derived_name c)).value) := by
  have h1 : pyGetItem (.map kvs) "x" = .ok vx := by simp [pyGetItem, hx]
  have h2 : pyGetItem (.map kvs) "y" = .ok vy := by simp [pyGetItem, hy]
  have h3 : pyGetItem (.map kvs) "z" = .ok vz := by simp [pyGetItem, hz]
  have h4 : pyGetItem (.map kvs) "roll" = .ok vr := by simp [pyGetItem, hr]
  have h5 : pyGetItem (.map kvs) "pitch" = .ok vp := by simp [pyGetItem, hp]
  have h6 : pyGetItem (.map kvs) "yaw" = .ok vw := by simp [pyGetItem, hw]
  have h7 : pyGet (.map kvs) "type" (.str "") = .ok (.str "") := by simp [pyGet, ht]
  have h8 : pyGet (.map kvs) "frame_id" (.str "") = .ok (.str "") := by simp [pyGet, hf]
  rw [Transformation.ofYaml]
  simp only [h1, h2, h3, h4, h5, h6, h7, h8, pyLen_str_empty]
  set u := (determine_link_type (derived_name c)).value with hu
  cases hb1 : strContains u "pandar" <;>
    cases hb2 : strContains u "livox" <;>
      cases hb3 : strContains u "camera" <;>
        (simp [mkT, pyInY, pyLower, hb1, hb2, hb3]
         <;> split <;> simp_all)

/-- Constructor characterization, declared (non-empty, string) type:
the type is kept and the frame_id defaults per the type's markers. -/
theorem ofYaml_char_with_type {kvs : List (String × Yaml)} {vx vy vz vr vp vw : Yaml}
    {s : String} (b c : String)
    (hx : alist_lookup kvs "x" = some vx) (hy : alist_lookup kvs "y" = some vy)
    (hz : alist_lookup kvs "z" = some vz) (hr : alist_lookup kvs "roll" = some vr)
    (hp : alist_lookup kvs "pitch" = some vp) (hw : alist_lookup kvs "yaw" = some vw)
    (ht : alist_lookup kvs "type" = some (.str s)) (hs : s ≠ "")
    (hf : alist_lookup kvs "frame_id" = none) :
    Transformation.ofYaml (.map kvs) b c = .ok (mkT vx vy vz vr vp vw b c s) := by
  have h1 : pyGetItem (.map kvs) "x" = .ok vx := by simp [pyGetItem, hx]
  have h2 : pyGetItem (.map kvs) "y" = .ok vy := by simp [pyGetItem, hy]
  have h3 : pyGetItem (.map kvs) "z" = .ok vz := by simp [pyGetItem, hz]
  have h4 : pyGetItem (.map kvs) "roll" = .ok vr := by simp [pyGetItem, hr]
  have h5 : pyGetItem (.map kvs) "pitch" = .ok vp := by simp [pyGetItem, hp]
  have h6 : pyGetItem (.map kvs) "yaw" = .ok vw := by simp [pyGetItem, hw]
  have h7 : pyGet (.map kvs) "type" (.str "") = .ok (.str s) := by simp [pyGet, ht]
  have h8 : pyGet (.map kvs) "frame_id" (.str "") = .ok (.str "") := by simp [pyGet, hf]
  have hlen : ¬ (s.length = 0) := Nat.pos_iff_ne_zero.mp (strlen_pos hs)
  rw [Transformation.ofYaml]
  simp only [h1, h2, h3, h4, h5, h6, h7, h8, pyLen, if_neg hlen, pyLen_str_empty]
  cases hb1 : strContains s "pandar" <;>
    cases hb2 : strContains s "livox" <;>
      cases hb3 : strContains s "camera" <;>
        (simp [mkT, pyInY, pyLower, hb1, hb2, hb3]
         <;> split <;> simp_all)

theorem LinkType.value_ne (e : LinkType) : e.value ≠ "" := by
  cases e <;> decide

/-- Classification of a transformation whose stored type is a non-empty
string whose lowering equals an enum value: the explicit match wins. -/
theorem obtain_of_match {t : Transformation} {s : String} {e : LinkType}
    (ht : t.type = .str s) (hs : s ≠ "") (he : strLower s = e.value) :
    obtain_link_type t = .ok e := by
  rw [obtain_link_type, ht]
  simp only [pyLen, pyLower]
  rw [if_pos (strlen_pos hs), he, LinkType.find_value e]

/-- Classification of a transformation whose stored type is a non-empty
string matching no enum value: the heuristic runs on the raw child frame. -/
theorem obtain_no_match {t : Transformation} {s : String}
    (ht : t.type = .str s) (hs : s ≠ "") (he : ∀ e : LinkType, strLower s ≠ e.value) :
    obtain_link_type t = .ok (determine_link_type t.child_frame) := by
  rw [obtain_link_type, ht]
  simp only [pyLen, pyLower]
  rw [if_pos (strlen_pos hs)]
  have hfind : LinkType.all.find? (fun x => strLower s == strLower x.value) = none := by
    rw [List.find?_eq_none]
    intro x _
    rw [LinkType.value_lower x]
    simpa using he x
  rw [hfind]

/-- If a string does not contain the pattern, Python replace keeps it
unchanged. -/
theorem pyReplace_id {s pat : String} (rep : String) (h : strContains s pat = false) :
    pyReplace s pat rep = s := by
  unfold pyReplace
  split
  · rfl
  · rw [replaceCore_id pat.data rep.data s.data s.data.length h]

/-! ## Claim C1 -/

/-- C1 (counterexample): the claim says classification inspects the
LOWER-CASED child-frame identifier.  The code does neither lower-case nor
(for an undeclared type) inspect the raw identifier: child frame `"CAM"`
with no declared type classifies as the joint-unit category in the code
while the spec's lower-cased heuristic yields the camera category, and
child frame `"ca_base_linkm"` classifies as camera in the code (its
suffix-stripped derived name is `"cam"`) while the spec's heuristic on the
(lower-cased) identifier yields the joint-unit category. -/
theorem C1_counterexample :
    (∃ t, Transformation.ofYaml (.map six_nums) "base_link" "CAM" = .ok t
          ∧ obtain_link_type t = .ok .JOINT_UNITS)
    ∧ spec_heuristic "CAM" = .CAMERA
    ∧ (∃ t, Transformation.ofYaml (.map six_nums) "base_link" "ca_base_linkm" = .ok t
          ∧ obtain_link_type t = .ok .CAMERA)
    ∧ spec_heuristic "ca_base_linkm" = .JOINT_UNITS :=
  ⟨⟨_, rfl, rfl⟩, rfl, ⟨_, rfl, rfl⟩, rfl⟩

/-- C1 (amended): for a Transformation with no declared type,
classification applies the marker chain (cam, imu, gnss, livox, velodyne
split on top, radar or ars, pandar_40p, pandar_qt, hesai_top, hesai_front,
any other hesai, else joint unit) to the suffix-stripped derived name
exactly as written, WITHOUT lower-casing; for a declared type string
matching no enumeration value, the chain runs on the raw child-frame
identifier, again without lower-casing.  `"velodyne_top_lidar"` classifies
as the 128-channel model and `"velodyne_lidar"` as the 16-channel model. -/
theorem C1_heuristic_amended :
    (∀ (kvs : List (String × Yaml)) (vx vy vz vr vp vw : Yaml) (b c : String),
       alist_lookup kvs "x" = some vx → alist_lookup kvs "y" = some vy →
       alist_lookup kvs "z" = some vz → alist_lookup kvs "roll" = some vr →
       alist_lookup kvs "pitch" = some vp → alist_lookup kvs "yaw" = some vw →
       alist_lookup kvs "type" = none → alist_lookup kvs "frame_id" = none →
       ∃ t, Transformation.ofYaml (.map kvs) b c = .ok t
            ∧ obtain_link_type t = .ok (determine_link_type (derived_name c)))
    ∧ (∀ (t : Transformation) (s : String), t.type = .str s → s ≠ "" →
         (∀ e : LinkType, strLower s ≠ e.value) →
         obtain_link_type t = .ok (determine_link_type t.child_frame))
    ∧ (∃ t, Transformation.ofYaml (.map six_nums) "base_link" "velodyne_top_lidar" = .ok t
          ∧ obtain_link_type t = .ok .VLS128)
    ∧ (∃ t, Transformation.ofYaml (.map six_nums) "base_link" "velodyne_lidar" = .ok t
          ∧ obtain_link_type t = .ok .VELODYNE16) := by
  refine ⟨?_, ?_, ⟨_, rfl, rfl⟩, ⟨_, rfl, rfl⟩⟩
  · intro kvs vx vy vz vr vp vw b c hx hy hz hr hp hw ht hf
    refine ⟨_, ofYaml_char_no_type b c hx hy hz hr hp hw ht hf, ?_⟩
    exact obtain_of_match rfl
      (LinkType.value_ne (determine_link_type (derived_name c)))
      (LinkType.value_lower (determine_link_type (derived_name c)))
  · intro t s ht hs he
    exact obtain_no_match ht hs he

/-- C1 (witness): the amended theorem applied to a no-type entry with
child frame `"x_cam_mount"` (classified camera through its stripped name)
and to a transformation whose declared type `"mystery"` matches no
enumeration value (heuristic on the raw child frame `"imu_box"`). -/
theorem C1_heuristic_amended_witness :
    (∃ t, Transformation.ofYaml (.map six_nums) "base_link" "x_cam_mount" = .ok t
          ∧ obtain_link_type t = .ok .CAMERA)
    ∧ obtain_link_type
        ⟨.num 0, .num 0, .num 0, .num 0, .num 0, .num 0,
         "base_link", "imu_box", .str "mystery", "imu_box", .str "imu_box"⟩ = .ok .IMU :=
  ⟨C1_heuristic_amended.1 six_nums _ _ _ _ _ _ "base_link" "x_cam_mount"
     rfl rfl rfl rfl rfl rfl rfl rfl,
   C1_heuristic_amended.2.1 _ "mystery" rfl (by decide) (by intro e; cases e <;> decide)⟩

/-! ## Claim C2 -/

/-- C2: a Transformation carrying a non-empty declared type string whose
case-insensitive form equals an enumeration value's canonical string
classifies as that category, regardless of the child-frame name; in
particular explicit type `"radar"` beats a child frame containing
`"cam"`. -/
theorem C2_explicit_type_match :
    (∀ (t : Transformation) (s : String) (e : LinkType),
       t.type = .str s → s ≠ "" → strLower s = e.value → obtain_link_type t = .ok e)
    ∧ (∃ t, Transformation.ofYaml (.map (six_nums ++ [("type", Yaml.str "radar")]))
              "base_link" "cam_front" = .ok t
          ∧ obtain_link_type t = .ok .RADAR) :=
  ⟨fun _ _ _ ht hs he => obtain_of_match ht hs he, ⟨_, rfl, rfl⟩⟩

/-- C2 (witness): the theorem applied to a transformation with declared
type `"Radar"` (mixed case) and a child frame containing `"cam"`. -/
theorem C2_explicit_type_match_witness :
    obtain_link_type
      ⟨.num 0, .num 0, .num 0, .num 0, .num 0, .num 0,
       "base_link", "cam_front", .str "Radar", "cam_front", .str "cam_front"⟩ = .ok .RADAR :=
  C2_explicit_type_match.1 _ "Radar" .RADAR rfl (by decide) (by decide)

/-! ## Claim C3 -/

/-- C3 (counterexample): the claim says the LOWER-CASED type is checked
for the sensor-family markers.  The code checks `pandar`, `livox` and
`camera` against the type as-is: declared type `"Livox_horizon"` with
empty frame_id and child frame `"sensor_kit_livox_link"` keeps the raw
child frame as frame_id, while the spec's lower-cased rule would give the
derived name `"sensor_kit_livox"`. -/
theorem C3_counterexample :
    (∃ t, Transformation.ofYaml (.map (six_nums ++ [("type", Yaml.str "Livox_horizon")]))
            "sensor_kit_base_link" "sensor_kit_livox_link" = .ok t
          ∧ t.frame_id = .str "sensor_kit_livox_link")
    ∧ spec_frame_id "Livox_horizon" (derived_name "sensor_kit_livox_link")
        "sensor_kit_livox_link" = "sensor_kit_livox" :=
  ⟨⟨_, rfl, rfl⟩, rfl⟩

/-- C3 (amended): for a Transformation constructed with an absent frame_id
and a non-empty declared type string `s`, the frame_id equals the derived
name when `s` contains `pandar`, `livox` or `camera` CASE-SENSITIVELY, or
when its lower-cased form contains `vls` or `vlp`; otherwise it equals the
raw child frame.  The claim's own example (lower-case `"livox_horizon"`)
does yield the derived name. -/
theorem C3_frame_id_amended :
    (∀ (kvs : List (String × Yaml)) (vx vy vz vr vp vw : Yaml) (b c s : String),
       alist_lookup kvs "x" = some vx → alist_lookup kvs "y" = some vy →
       alist_lookup kvs "z" = some vz → alist_lookup kvs "roll" = some vr →
       alist_lookup kvs "pitch" = some vp → alist_lookup kvs "yaw" = some vw →
       alist_lookup kvs "type" = some (.str s) → s ≠ "" →
       alist_lookup kvs "frame_id" = none →
       ∃ t, Transformation.ofYaml (.map kvs) b c = .ok t ∧ t.type = .str s ∧
         t.frame_id = .str (if strContains s "pandar" || strContains s "livox"
             || strContains s "camera" || strContains (strLower s) "vls"
             || strContains (strLower s) "vlp" then derived_name c else c))
    ∧ (∃ t, Transformation.ofYaml (.map (six_nums ++ [("type", Yaml.str "livox_horizon")]))
              "sensor_kit_base_link" "sensor_kit_livox_link" = .ok t
            ∧ t.frame_id = .str "sensor_kit_livox") := by
  refine ⟨?_, ⟨_, rfl, rfl⟩⟩
  intro kvs vx vy vz vr vp vw b c s hx hy hz hr hp hw ht hs hf
  exact ⟨_, ofYaml_char_with_type b c hx hy hz hr hp hw ht hs hf, rfl, rfl⟩

/-- C3 (witness): the amended theorem applied to declared type
`"pandar_40p"` with child frame `"pandar_front_base_link"`. -/
theorem C3_frame_id_amended_witness :
    ∃ t, Transformation.ofYaml
          (.map (six_nums ++ [("type", Yaml.str "pandar_40p")]))
          "base_link" "pandar_front_base_link" = .ok t
        ∧ t.type = .str "pandar_40p" ∧ t.frame_id = .str "pandar_front" :=
  C3_frame_id_amended.1 (six_nums ++ [("type", Yaml.str "pandar_40p")])
    _ _ _ _ _ _ "base_link" "pandar_front_base_link" "pandar_40p"
    rfl rfl rfl rfl rfl rfl rfl (by decide) rfl

/-! ## Claim C4 -/

/-- C4 (counterexample): the claim says the name is the identifier with
the SUFFIXES `_base_link` and `_link` stripped and that an identifier
carrying neither suffix is unchanged.  The code removes every occurrence
of those substrings anywhere in the identifier: `"foo_linker"` ends in
neither suffix, yet its derived name is `"fooer"`, where the spec's
suffix-stripping leaves `"foo_linker"` unchanged. -/
theorem C4_counterexample :
    derived_name "foo_linker" = "fooer"
    ∧ spec_name "foo_linker" = "foo_linker"
    ∧ (∃ t, Transformation.ofYaml (.map six_nums) "base_link" "foo_linker" = .ok t
          ∧ t.name = "fooer") :=
  ⟨rfl, rfl, ⟨_, rfl, rfl⟩⟩

/-- C4 (amended): the derived name is the child-frame identifier with
every occurrence of the substring `_base_link` removed and then every
occurrence of `_link` removed: `"foo_sensor_base_link"` yields
`"foo_sensor"`, `"bar_link"` yields `"bar"`, and an identifier containing
neither substring is unchanged. -/
theorem C4_name_amended :
    derived_name "foo_sensor_base_link" = "foo_sensor"
    ∧ derived_name "bar_link" = "bar"
    ∧ ∀ s : String, strContains s "_base_link" = false → strContains s "_link" = false →
        derived_name s = s :=
  ⟨rfl, rfl, fun s h1 h2 => by
    unfold derived_name
    rw [pyReplace_id _ h1, pyReplace_id _ h2]⟩

/-- C4 (witness): the amended theorem applied to `"plain_frame"`, which
contains neither substring. -/
theorem C4_name_amended_witness :
    strContains "plain_frame" "_base_link" = false
    ∧ strContains "plain_frame" "_link" = false
    ∧ derived_name "plain_frame" = "plain_frame" :=
  ⟨rfl, rfl, C4_name_amended.2.2 "plain_frame" rfl rfl⟩

/-! ## Claim C5 -/

/-- C5 (code evaluation at the failing input): the emitted
`isolated_sensors_includes` list is `list(include_text)` over a Python
`set`, whose enumeration order is implementation-defined (hash-randomized
across processes) and NOT sorted by the code.  For a calibration
contributing two distinct include references, two admissible enumeration
orders of the same include set already yield different rendered lists, so
byte-identical output across runs is not guaranteed by the input alone. -/
theorem C5_include_order_underdetermined :
    ∃ (ord1 ord2 : List String → List String) (c : Calibration) (agg : AggResult),
      Calibration.ofYaml demoCal5 = .ok c
      ∧ aggLoop c.transforms [] [] [] [] = .ok agg
      ∧ (∀ l, (ord1 l).Perm l) ∧ (∀ l, (ord2 l).Perm l)
      ∧ ord1 agg.includes ≠ ord2 agg.includes := by
  refine ⟨id, List.reverse, _, _, rfl, rfl,
    fun l => List.Perm.refl l, fun l => l.reverse_perm, ?_⟩
  decide

/-! ## Claim C6 -/

/-- The per-unit loop only grows the include set. -/
theorem unitLoop_mono :
    ∀ (ts : List (String × Transformation)) (incl incl1 sens : _),
      unitLoop ts incl = .ok (incl1, sens) → ∀ x ∈ incl, x ∈ incl1 := by
  intro ts
  induction ts with
  | nil =>
    intro incl incl1 sens h x hx
    cases h
    exact hx
  | cons p rest ih =>
    obtain ⟨a, t⟩ := p
    intro incl incl1 sens h x hx
    rw [unitLoop] at h
    rcases ho : obtain_link_type t with e | lt
    · simp [ho] at h
    simp only [ho] at h
    rcases hsa : string_api lt with _ | f
    · simp [hsa] at h
    simp only [hsa] at h
    rcases hrec : unitLoop rest (setAdd incl (including_file lt)) with e | ⟨inclF, sens2⟩
    · simp [hrec] at h
    simp only [hrec, Except.ok.injEq, Prod.mk.injEq] at h
    obtain ⟨rfl, rfl⟩ := h
    exact ih _ _ _ hrec x (mem_setAdd.mpr (Or.inl hx))

/-- The include set after a unit's loop is the starting set plus exactly
the include files the unit's transforms contribute. -/
theorem unitLoop_collected :
    ∀ (ts : List (String × Transformation)) (incl incl1 sens : _),
      unitLoop ts incl = .ok (incl1, sens) →
      ∃ fl, collected_files ts = .ok fl ∧ ∀ x, x ∈ incl1 ↔ x ∈ incl ∨ x ∈ fl := by
  intro ts
  induction ts with
  | nil =>
    intro incl incl1 sens h
    cases h
    exact ⟨[], rfl, by simp⟩
  | cons p rest ih =>
    obtain ⟨a, t⟩ := p
    intro incl incl1 sens h
    rw [unitLoop] at h
    rcases ho : obtain_link_type t with e | lt
    · simp [ho] at h
    simp only [ho] at h
    rcases hsa : string_api lt with _ | f
    · simp [hsa] at h
    simp only [hsa] at h
    rcases hrec : unitLoop rest (setAdd incl (including_file lt)) with e | ⟨inclF, sens2⟩
    · simp [hrec] at h
    simp only [hrec, Except.ok.injEq, Prod.mk.injEq] at h
    obtain ⟨rfl, rfl⟩ := h
    obtain ⟨fl, hfl, hiff⟩ := ih _ _ _ hrec
    refine ⟨including_file lt :: fl, ?_, ?_⟩
    · rw [collected_files]
      simp only [ho, hsa, hfl]
    · intro x
      rw [hiff x, mem_setAdd, List.mem_cons, or_assoc]

/-- Invariant of the per-unit orchestration loop: every written unit's
include list contains the starting set, the lists grow along the run, and
each unit's own collected include files are in its list. -/
theorem unitsLoop_spec (fs : List (String × Yaml)) :
    ∀ (units : List UnitMeta) (incl : List String) (outs : List UnitOut) (err : Option PyErr),
      unitsLoop fs units incl = (outs, err) →
      (∀ o ∈ outs, ∀ x ∈ incl, x ∈ o.includes)
      ∧ List.Pairwise (fun a b : UnitOut => ∀ x ∈ a.includes, x ∈ b.includes) outs
      ∧ (∀ o ∈ outs, ∀ y calib fl,
           load_yaml fs (o.name ++ "_calibration.yaml") = .ok y →
           Calibration.ofYaml y = .ok calib →
           collected_files calib.transforms = .ok fl →
           ∀ x ∈ fl, x ∈ o.includes) := by
  intro units
  induction units with
  | nil =>
    intro incl outs err h
    cases h
    exact ⟨by simp, by simp, by simp⟩
  | cons u rest ih =>
    intro incl outs err h
    rw [unitsLoop] at h
    rcases hload : load_yaml fs (u.name ++ "_calibration.yaml") with e | y
    · simp only [hload] at h
      cases h; exact ⟨by simp, by simp, by simp⟩
    simp only [hload] at h
    rcases hcal : Calibration.ofYaml y with e | calib
    · simp only [hcal] at h
      cases h; exact ⟨by simp, by simp, by simp⟩
    simp only [hcal] at h
    rcases hul : unitLoop calib.transforms incl with e | ⟨incl1, sens⟩
    · simp only [hul] at h
      cases h; exact ⟨by simp, by simp, by simp⟩
    simp only [hul] at h
    rcases hrec : unitsLoop fs rest incl1 with ⟨outs2, err2⟩
    simp only [hrec] at h
    cases h
    obtain ⟨ih1, ih2, ih3⟩ := ih _ _ _ hrec
    refine ⟨?_, ?_, ?_⟩
    · intro o ho x hx
      rcases List.mem_cons.mp ho with rfl | ho2
      · exact unitLoop_mono _ _ _ _ hul x hx
      · exact ih1 o ho2 x (unitLoop_mono _ _ _ _ hul x hx)
    · exact List.Pairwise.cons (fun b hb x hxin => ih1 b hb x hxin) ih2
    · intro o ho y2 calib2 fl hL hC hF x hx
      rcases List.mem_cons.mp ho with rfl | ho2
      · rw [hload] at hL
        cases hL
        rw [hcal] at hC
        cases hC
        obtain ⟨fl0, hfl0, hiff⟩ := unitLoop_collected calib.transforms incl incl1 sens hul
        rw [hfl0] at hF
        cases hF
        exact (hiff x).mpr (Or.inr hx)
      · exact ih3 o ho2 y2 calib2 fl hL hC hF x hx

/-- C6: the include set accumulates globally across the aggregate pass and
all per-unit passes.  Starting the per-unit stage from the aggregate's
include set `incl`, every written unit's `isolated_sensors_includes`
contains all of `incl`, contains every earlier unit's include list, and
contains the unit's own collected include files: the set only grows. -/
theorem C6_global_include_accumulation
    (fs : List (String × Yaml)) (units : List UnitMeta) (incl : List String)
    (outs : List UnitOut) (err : Option PyErr)
    (h : unitsLoop fs units incl = (outs, err))
    (i j : Nat) (hi : i < outs.length) (hj : j ≤ i) :
    (∀ x ∈ incl, x ∈ (outs.get ⟨i, hi⟩).includes)
    ∧ (∀ x ∈ (outs.get ⟨j, Nat.lt_of_le_of_lt hj hi⟩).includes, x ∈ (outs.get ⟨i, hi⟩).includes)
    ∧ (∀ y calib fl,
         load_yaml fs ((outs.get ⟨i, hi⟩).name ++ "_calibration.yaml") = .ok y →
         Calibration.ofYaml y = .ok calib →
         collected_files calib.transforms = .ok fl →
         ∀ x ∈ fl, x ∈ (outs.get ⟨i, hi⟩).includes) := by
  obtain ⟨h1, h2, h3⟩ := unitsLoop_spec fs units incl outs err h
  refine ⟨fun x hx => h1 _ (outs.get_mem _ _) x hx, ?_,
    fun y calib fl hL hC hF x hx => h3 _ (outs.get_mem _ _) y calib fl hL hC hF x hx⟩
  rcases Nat.lt_or_ge j i with hlt | hge
  · exact List.pairwise_iff_get.mp h2 ⟨j, Nat.lt_of_le_of_lt hj hi⟩ ⟨i, hi⟩ hlt
  · have hji : j = i := Nat.le_antisymm hj hge
    subst hji
    exact fun x hx => hx

/-- A file system with two single-sensor unit calibrations. -/
def demoFs6 : List (String × Yaml) :=
  [("u1_calibration.yaml", .map [("u1_base_link", .map
      [("cam0", .map (six_nums ++ [("type", Yaml.str "monocular_camera")]))])]),
   ("u2_calibration.yaml", .map [("u2_base_link", .map
      [("imu0", .map (six_nums ++ [("type", Yaml.str "imu")]))])])]

/-- Joint-unit metadata naming the two units of `demoFs6`. -/
def demoUnits6 : List UnitMeta :=
  [⟨"base_link", "u1_base_link", "u1_macro", "u1"⟩,
   ⟨"base_link", "u2_base_link", "u2_macro", "u2"⟩]

/-- The per-unit artifacts of running the unit stage of `demoFs6` from the
include set `["seed"]`. -/
def demoOuts6 : List UnitOut :=
  (unitsLoop demoFs6 demoUnits6 ["seed"]).1

/-- C6 (witness): in the two-unit run of `demoFs6`, the second unit's
include list contains the aggregate seed include, the first unit's camera
include, and the second unit's own IMU include. -/
theorem C6_global_include_accumulation_witness :
    "seed" ∈ (demoOuts6.get ⟨1, by decide⟩).includes
    ∧ "$(find camera_description)/urdf/monocular_camera.xacro"
        ∈ (demoOuts6.get ⟨1, by decide⟩).includes
    ∧ "$(find imu_description)/urdf/imu.xacro" ∈ (demoOuts6.get ⟨1, by decide⟩).includes := by
  have h := C6_global_include_accumulation demoFs6 demoUnits6 ["seed"] demoOuts6 none
    rfl 1 0 (by decide) (by decide)
  exact ⟨h.1 "seed" (by decide),
         h.2.1 _ (by decide),
         h.2.2 _ _ _ rfl rfl rfl _ (by decide)⟩

/-! ## Claim C7 -/

theorem pyLen_error {v : Yaml} {e : PyErr} (h : pyLen v = .error e) : e = .typeError := by
  cases v <;> simp [pyLen] at h <;> exact h.symm

theorem pyInY_error {pat : String} {v : Yaml} {e : PyErr}
    (h : pyInY pat v = .error e) : e = .typeError := by
  cases v <;> simp [pyInY] at h <;> exact h.symm

theorem pyLower_error {v : Yaml} {e : PyErr} (h : pyLower v = .error e) : e = .attributeError := by
  cases v <;> simp [pyLower] at h <;> exact h.symm

/-- A well-formed entry constructs successfully. -/
theorem ofYaml_ok_of_good {v : Yaml} (b c : String) (hg : good_entry v = true) :
    ∃ t, Transformation.ofYaml v b c = .ok t := by
  cases v
  case map kvs =>
    simp only [good_entry, Bool.and_eq_true] at hg
    obtain ⟨⟨h6, hty⟩, hfr⟩ := hg
    simp only [has_offsets, offset_keys, List.all_cons, List.all_nil, Bool.and_eq_true,
      Option.isSome_iff_exists, and_true] at h6
    obtain ⟨⟨vx, hx⟩, ⟨vy, hy⟩, ⟨vz, hz⟩, ⟨vr, hr⟩, ⟨vp, hp⟩, ⟨vw, hw⟩⟩ := h6
    have hgx : pyGetItem (.map kvs) "x" = .ok vx := by simp [pyGetItem, hx]
    have hgy : pyGetItem (.map kvs) "y" = .ok vy := by simp [pyGetItem, hy]
    have hgz : pyGetItem (.map kvs) "z" = .ok vz := by simp [pyGetItem, hz]
    have hgr : pyGetItem (.map kvs) "roll" = .ok vr := by simp [pyGetItem, hr]
    have hgp : pyGetItem (.map kvs) "pitch" = .ok vp := by simp [pyGetItem, hp]
    have hgw : pyGetItem (.map kvs) "yaw" = .ok vw := by simp [pyGetItem, hw]
    rw [Transformation.ofYaml]
    simp only [hgx, hgy, hgz, hgr, hgp, hgw]
    unfold opt_str_field at hty hfr
    rcases hlty : alist_lookup kvs "type" with _ | tv
    · rcases hlfr : alist_lookup kvs "frame_id" with _ | fv
      · simp only [pyGet, hlty, hlfr, Option.getD_none, pyLen_str_empty, pyInY, pyLower]
        repeat' first
        | exact ⟨_, rfl⟩
        | split
        | simp_all
      · rw [hlfr] at hfr
        rcases fv with _ | _ | _ | fstr | _ | _ <;> simp at hfr
        simp only [pyGet, hlty, hlfr, Option.getD_none, Option.getD_some, pyLen_str_empty,
          pyLen, pyInY, pyLower, ← apply_ite Yaml.str]
        repeat' first
        | exact ⟨_, rfl⟩
        | split
    · rw [hlty] at hty
      rcases tv with _ | _ | _ | tstr | _ | _ <;> simp at hty
      rcases hlfr : alist_lookup kvs "frame_id" with _ | fv
      · simp only [pyGet, hlty, hlfr, Option.getD_none, Option.getD_some, pyLen_str_empty,
          pyLen, pyInY, pyLower, ← apply_ite Yaml.str]
        repeat' first
        | exact ⟨_, rfl⟩
        | split
      · rw [hlfr] at hfr
        rcases fv with _ | _ | _ | fstr | _ | _ <;> simp at hfr
        simp only [pyGet, hlty, hlfr, Option.getD_none, Option.getD_some, pyLen_str_empty,
          pyLen, pyInY, pyLower, ← apply_ite Yaml.str]
        repeat' first
        | exact ⟨_, rfl⟩
        | split
  all_goals simp [good_entry] at hg

/-- Well-formed children build a transform per child. -/
theorem buildTransforms_ok (base : String) :
    ∀ children : List (String × Yaml), (∀ p ∈ children, good_entry p.2 = true) →
      ∃ ts, buildTransforms base children = .ok ts ∧ ts.length = children.length := by
  intro children
  induction children with
  | nil => exact fun _ => ⟨[], rfl, rfl⟩
  | cons p rest ih =>
    obtain ⟨k, v⟩ := p
    intro hall
    obtain ⟨t, ht⟩ := ofYaml_ok_of_good base k (hall (k, v) (by simp))
    obtain ⟨ts, hts, hlen⟩ := ih (fun q hq => hall q (List.mem_cons_of_mem _ hq))
    refine ⟨(k, t) :: ts, ?_, by simp [hlen]⟩
    rw [buildTransforms]
    simp only [ht, hts]

/-- A child entry missing an offset key makes the constructor fail with
the KeyError of the first absent key. -/
theorem ofYaml_first_missing {kvs : List (String × Yaml)} {f : String} (b c : String)
    (h : first_missing kvs = some f) :
    Transformation.ofYaml (.map kvs) b c = .error (.missingField f) := by
  unfold first_missing offset_keys at h
  rcases hx : alist_lookup kvs "x" with _ | vx
  · simp only [List.find?, hx, Option.isNone_none, Option.some.injEq] at h
    subst h
    rw [Transformation.ofYaml]
    simp [pyGetItem, hx]
  rcases hy : alist_lookup kvs "y" with _ | vy
  · simp only [List.find?, hx, hy, Option.isNone_none, Option.isNone_some,
      Option.some.injEq] at h
    subst h
    rw [Transformation.ofYaml]
    simp [pyGetItem, hx, hy]
  rcases hz : alist_lookup kvs "z" with _ | vz
  · simp only [List.find?, hx, hy, hz, Option.isNone_none, Option.isNone_some,
      Option.some.injEq] at h
    subst h
    rw [Transformation.ofYaml]
    simp [pyGetItem, hx, hy, hz]
  rcases hr : alist_lookup kvs "roll" with _ | vr
  · simp only [List.find?, hx, hy, hz, hr, Option.isNone_none, Option.isNone_some,
      Option.some.injEq] at h
    subst h
    rw [Transformation.ofYaml]
    simp [pyGetItem, hx, hy, hz, hr]
  rcases hp : alist_lookup kvs "pitch" with _ | vp
  · simp only [List.find?, hx, hy, hz, hr, hp, Option.isNone_none, Option.isNone_some,
      Option.some.injEq] at h
    subst h
    rw [Transformation.ofYaml]
    simp [pyGetItem, hx, hy, hz, hr, hp]
  rcases hw : alist_lookup kvs "yaw" with _ | vw
  · simp only [List.find?, hx, hy, hz, hr, hp, hw, Option.isNone_none, Option.isNone_some,
      Option.some.injEq] at h
    subst h
    rw [Transformation.ofYaml]
    simp [pyGetItem, hx, hy, hz, hr, hp, hw]
  simp [List.find?, hx, hy, hz, hr, hp, hw] at h

/-- C7: Calibration construction succeeds on valid single-base-frame
inputs with one transform per child-frame key; a mapping whose top-level
key count is not one fails with the format error; a child entry missing an
offset field fails with the missing-field error naming the (first) absent
field, which is indeed absent. -/
theorem C7_calibration_construction :
    (∀ (base : String) (children : List (String × Yaml)),
       (∀ p ∈ children, good_entry p.2 = true) → (children.map Prod.fst).Nodup →
       ∃ cal, Calibration.ofYaml (.map [(base, .map children)]) = .ok cal
              ∧ cal.transforms.length = children.length)
    ∧ (∀ kvs : List (String × Yaml), kvs.length ≠ 1 →
         Calibration.ofYaml (.map kvs) =
           .error (.formatError "Calibration file should have only one base frame"))
    ∧ (∀ (base k : String) (e rest : List (String × Yaml)) (f : String),
         first_missing e = some f →
         Calibration.ofYaml (.map [(base, .map ((k, .map e) :: rest))])
             = .error (.missingField f)
           ∧ alist_lookup e f = none) := by
  refine ⟨?_, ?_, ?_⟩
  · intro base children hall _
    obtain ⟨ts, hts, hlen⟩ := buildTransforms_ok base children hall
    refine ⟨⟨base, ts⟩, ?_, hlen⟩
    rw [Calibration.ofYaml]
    simp only [hts]
  · intro kvs hlen
    rcases kvs with _ | ⟨⟨k1, v1⟩, _ | ⟨⟨k2, v2⟩, rest⟩⟩
    · rfl
    · simp at hlen
    · cases v1 <;> rfl
  · intro base k e rest f h
    have hmiss := ofYaml_first_missing base k h
    constructor
    · rw [Calibration.ofYaml, buildTransforms]
      simp only [hmiss]
    · have hp := List.find?_some h
      simpa using hp

/-- C7 (witness): the theorem applied to the one-camera calibration, to
the empty mapping, and to a child entry missing the `y` field. -/
theorem C7_calibration_construction_witness :
    (∃ cal, Calibration.ofYaml demoCal8 = .ok cal ∧ cal.transforms.length = 1)
    ∧ Calibration.ofYaml (.map [])
        = .error (.formatError "Calibration file should have only one base frame")
    ∧ (Calibration.ofYaml (.map [("base_link", .map [("child0", .map [("x", .num 1)])])])
         = .error (.missingField "y")
       ∧ alist_lookup [("x", Yaml.num 1)] "y" = none) :=
  ⟨C7_calibration_construction.1 "sensor_kit_base_link"
     [("camera_front_base_link", .map (six_nums ++ [("type", Yaml.str "monocular_camera")]))]
     (by decide) (by decide),
   C7_calibration_construction.2.1 [] (by decide),
   C7_calibration_construction.2.2 "base_link" "child0" [("x", Yaml.num 1)] [] "y" rfl⟩

/-! ## Claim C8 -/

set_option maxRecDepth 4000 in
/-- C8: the one-camera calibration produces exactly one isolated-sensor
invocation string with the camera macro's name/parent attributes, the six
deferred-lookup offset expressions, and the camera extra attributes; the
aggregate include set holds exactly the camera include reference. -/
theorem C8_camera_end_to_end :
    ∃ cal agg, Calibration.ofYaml demoCal8 = .ok cal
      ∧ aggLoop cal.transforms [] [] [] [] = .ok agg
      ∧ agg.includes = ["$(find camera_description)/urdf/monocular_camera.xacro"]
      ∧ agg.units = [] ∧ agg.unit_includes = []
      ∧ ∃ s, agg.sensors = [s]
        ∧ strContains s "name=\"camera_front\"" = true
        ∧ strContains s "parent=\"sensor_kit_base_link\"" = true
        ∧ strContains s
            "x=\"$\x7bcalibration['sensor_kit_base_link']['camera_front_base_link']['x']\x7d\"" = true
        ∧ strContains s
            "y=\"$\x7bcalibration['sensor_kit_base_link']['camera_front_base_link']['y']\x7d\"" = true
        ∧ strContains s
            "z=\"$\x7bcalibration['sensor_kit_base_link']['camera_front_base_link']['z']\x7d\"" = true
        ∧ strContains s
            "roll=\"$\x7bcalibration['sensor_kit_base_link']['camera_front_base_link']['roll']\x7d\"" = true
        ∧ strContains s
            "pitch=\"$\x7bcalibration['sensor_kit_base_link']['camera_front_base_link']['pitch']\x7d\"" = true
        ∧ strContains s
            "yaw=\"$\x7bcalibration['sensor_kit_base_link']['camera_front_base_link']['yaw']\x7d\"" = true
        ∧ strContains s "fps=\"30\"" = true
        ∧ strContains s "width=\"800\"" = true
        ∧ strContains s "height=\"400\"" = true
        ∧ strContains s "fov=\"1.3\"" = true := by
  refine ⟨_, _, rfl, rfl, rfl, rfl, rfl, _, rfl, ?_, ?_, ?_, ?_, ?_, ?_, ?_, ?_, ?_, ?_, ?_, ?_⟩
  all_goals decide

/-! ## Claim C9 -/

/-- C9: a child frame with no declared type whose derived name matches no
heuristic marker is classified as a joint unit; the orchestrator then
tries to load `<name>_calibration.yaml`, and when that source is absent
the whole compile ends with the NotFound failure and no per-unit output. -/
theorem C9_missing_unit_calibration
    (fs : List (String × Yaml)) (base childName : String) (e : List (String × Yaml))
    (vx vy vz vr vp vw : Yaml)
    (hmain : alist_lookup fs "sensors_calibration.yaml"
      = some (.map [(base, .map [(childName, .map e)])]))
    (hunit : alist_lookup fs (derived_name childName ++ "_calibration.yaml") = none)
    (hx : alist_lookup e "x" = some vx) (hy : alist_lookup e "y" = some vy)
    (hz : alist_lookup e "z" = some vz) (hr : alist_lookup e "roll" = some vr)
    (hp : alist_lookup e "pitch" = some vp) (hw : alist_lookup e "yaw" = some vw)
    (ht : alist_lookup e "type" = none) (hf : alist_lookup e "frame_id" = none)
    (hJU : determine_link_type (derived_name childName) = .JOINT_UNITS) :
    ∃ uincl, compile fs =
      .ok ⟨⟨[], [],
            [⟨base, childName, derived_name childName ++ "_macro", derived_name childName⟩],
            uincl⟩,
           [],
           some (.notFound
             ("YAML file not found: " ++ (derived_name childName ++ "_calibration.yaml")))⟩ := by
  have hload : load_yaml fs "sensors_calibration.yaml"
      = .ok (.map [(base, .map [(childName, .map e)])]) := by
    rw [load_yaml, hmain]
  have htr : Transformation.ofYaml (.map e) base childName
      = .ok (mkT vx vy vz vr vp vw base childName
          (determine_link_type (derived_name childName)).value) :=
    ofYaml_char_no_type base childName hx hy hz hr hp hw ht hf
  have hcal : Calibration.ofYaml (.map [(base, .map [(childName, .map e)])])
      = .ok ⟨base, [(childName, mkT vx vy vz vr vp vw base childName
          (determine_link_type (derived_name childName)).value)]⟩ := by
    rw [Calibration.ofYaml, buildTransforms]
    simp only [htr, buildTransforms]
  have hobt : obtain_link_type (mkT vx vy vz vr vp vw base childName
      (determine_link_type (derived_name childName)).value) = .ok .JOINT_UNITS := by
    rw [← hJU]
    exact obtain_of_match rfl
      (LinkType.value_ne (determine_link_type (derived_name childName)))
      (LinkType.value_lower (determine_link_type (derived_name childName)))
  have hagg : aggLoop [(childName, mkT vx vy vz vr vp vw base childName
      (determine_link_type (derived_name childName)).value)] [] [] [] []
      = .ok ⟨[], [],
          [⟨base, childName, derived_name childName ++ "_macro", derived_name childName⟩],
          [pyReplace (including_file .JOINT_UNITS) "\x7bfilename\x7d" (derived_name childName)]⟩ := by
    rw [aggLoop]
    simp only [hobt]
    simp [aggLoop, mkT]
  have hunits : unitsLoop fs
      [⟨base, childName, derived_name childName ++ "_macro", derived_name childName⟩] []
      = ([], some (.notFound
          ("YAML file not found: " ++ (derived_name childName ++ "_calibration.yaml")))) := by
    rw [unitsLoop, load_yaml]
    simp only [hunit]
  refine ⟨[pyReplace (including_file .JOINT_UNITS) "\x7bfilename\x7d" (derived_name childName)], ?_⟩
  rw [compile]
  simp only [hload, hcal, hagg, hunits]

/-- C9 (witness): the theorem applied to the `"unknown_mount"` scenario
with a file system lacking `unknown_mount_calibration.yaml`. -/
theorem C9_missing_unit_calibration_witness :
    ∃ uincl, compile demoFs9 =
      .ok ⟨⟨[], [], [⟨"base_link", "unknown_mount", "unknown_mount_macro", "unknown_mount"⟩],
            uincl⟩,
           [], some (.notFound "YAML file not found: unknown_mount_calibration.yaml")⟩ :=
  C9_missing_unit_calibration demoFs9 "base_link" "unknown_mount" six_nums
    _ _ _ _ _ _ rfl rfl rfl rfl rfl rfl rfl rfl rfl rfl rfl

/-! ## Claim C10 -/

/-- C10 (counterexample): the claim says every entry containing the six
offset keys constructs successfully.  An entry with all six offsets plus
`type: null` has every offset key present, yet construction dies with the
TypeError of `len(None)` (and not with the missing-field error). -/
theorem C10_counterexample :
    has_offsets (six_nums ++ [("type", Yaml.null)]) = true
    ∧ Transformation.ofYaml (.map (six_nums ++ [("type", Yaml.null)])) "base_link" "child0"
        = .error .typeError :=
  ⟨rfl, rfl⟩

/-- C10 (amended): construction checks only the PRESENCE of the six offset
keys, never the types of their values — any entry with all six keys whose
optional `type`/`frame_id` fields (when present) hold strings constructs
successfully, however non-numeric the offset values; and the missing-field
error arises only for an absent offset key. -/
theorem C10_presence_only :
    (∀ (kvs : List (String × Yaml)) (b c : String),
       has_offsets kvs = true → opt_str_field kvs "type" = true →
       opt_str_field kvs "frame_id" = true →
       ∃ t, Transformation.ofYaml (.map kvs) b c = .ok t)
    ∧ (∀ (v : Yaml) (b c f : String),
         Transformation.ofYaml v b c = .error (.missingField f) →
         f ∈ offset_keys ∧ ∃ kvs, v = .map kvs ∧ alist_lookup kvs f = none)
    ∧ (∃ t, Transformation.ofYaml
          (.map [("x", .str "hello"), ("y", .null), ("z", .list []),
                 ("roll", .bool true), ("pitch", .map []), ("yaw", .num 7)])
          "base_link" "odd_values" = .ok t) := by
  refine ⟨?_, ?_, ⟨_, rfl⟩⟩
  · intro kvs b c h6 hty hfr
    exact ofYaml_ok_of_good b c (by simp [good_entry, h6, hty, hfr])
  · intro v b c f h
    cases v
    case map kvs =>
      refine ?_
      rcases hx : alist_lookup kvs "x" with _ | vx
      · rw [Transformation.ofYaml] at h
        simp only [pyGetItem, hx] at h
        cases h
        exact ⟨by decide, kvs, rfl, hx⟩
      rcases hy : alist_lookup kvs "y" with _ | vy
      · rw [Transformation.ofYaml] at h
        simp only [pyGetItem, hx, hy] at h
        cases h
        exact ⟨by decide, kvs, rfl, hy⟩
      rcases hz : alist_lookup kvs "z" with _ | vz
      · rw [Transformation.ofYaml] at h
        simp only [pyGetItem, hx, hy, hz] at h
        cases h
        exact ⟨by decide, kvs, rfl, hz⟩
      rcases hr : alist_lookup kvs "roll" with _ | vr
      · rw [Transformation.ofYaml] at h
        simp only [pyGetItem, hx, hy, hz, hr] at h
        cases h
        exact ⟨by decide, kvs, rfl, hr⟩
      rcases hp : alist_lookup kvs "pitch" with _ | vp
      · rw [Transformation.ofYaml] at h
        simp only [pyGetItem, hx, hy, hz, hr, hp] at h
        cases h
        exact ⟨by decide, kvs, rfl, hp⟩
      rcases hw : alist_lookup kvs "yaw" with _ | vw
      · rw [Transformation.ofYaml] at h
        simp only [pyGetItem, hx, hy, hz, hr, hp, hw] at h
        cases h
        exact ⟨by decide, kvs, rfl, hw⟩
      -- all six present: the remaining computation never raises KeyError
      exfalso
      rw [Transformation.ofYaml] at h
      simp only [pyGetItem, pyGet, hx, hy, hz, hr, hp, hw] at h
      rcases hpl : pyLen ((alist_lookup kvs "type").getD (.str "")) with e1 | n
      · simp only [hpl] at h
        cases pyLen_error hpl
        cases h
      simp only [hpl] at h
      rcases hpf : pyLen ((alist_lookup kvs "frame_id").getD (.str "")) with e2 | m
      · simp only [hpf] at h
        cases pyLen_error hpf
        cases h
      simp only [hpf] at h
      set ty1 := if n = 0
        then Yaml.str (determine_link_type (derived_name c)).value
        else (alist_lookup kvs "type").getD (.str "") with hty1
      by_cases hm : m = 0
      · simp only [if_pos hm] at h
        rcases hb1 : pyInY "pandar" ty1 with e3 | b1
        · simp only [hb1] at h
          cases pyInY_error hb1
          cases h
        simp only [hb1] at h
        cases b1
        · simp only [Bool.false_eq_true, if_false] at h
          rcases hb2 : pyInY "livox" ty1 with e4 | b2
          · simp only [hb2] at h
            cases pyInY_error hb2
            cases h
          simp only [hb2] at h
          cases b2
          · simp only [Bool.false_eq_true, if_false] at h
            rcases hb3 : pyInY "camera" ty1 with e5 | b3
            · simp only [hb3] at h
              cases pyInY_error hb3
              cases h
            simp only [hb3] at h
            cases b3
            · simp only [Bool.false_eq_true, if_false] at h
              rcases hlo : pyLower ty1 with e6 | tl
              · simp only [hlo] at h
                cases pyLower_error hlo
                cases h
              simp only [hlo] at h
              split at h <;> cases h
            · simp at h
          · simp at h
        · simp at h
      · simp only [if_neg hm] at h
        cases h
    all_goals
      rw [Transformation.ofYaml] at h
      simp [pyGetItem] at h

/-- C10 (witness): the amended theorem applied to an entry whose offset
values are a list, numbers, a string and null; and to the empty mapping,
whose first missing offset key is `x`. -/
theorem C10_presence_only_witness :
    (∃ t, Transformation.ofYaml
        (.map [("x", .list []), ("y", .num 0), ("z", .num 0),
               ("roll", .str "r"), ("pitch", .num 0), ("yaw", .null)])
        "b" "frame0" = .ok t)
    ∧ ("x" ∈ offset_keys
       ∧ ∃ kvs, Yaml.map ([] : List (String × Yaml)) = .map kvs ∧ alist_lookup kvs "x" = none) :=
  ⟨C10_presence_only.1 _ "b" "frame0" (by decide) (by decide) (by decide),
   C10_presence_only.2.1 (.map []) "b" "c" "x" rfl⟩

end AipUrdf
